import Mathlib

/-!
# Verification of the beacn-on-linux/beacn-lib core against its specification

Shallow embedding of the library's core subsystems, translated from the Rust
sources:

* src/types.rs          — value codec, range types, packed key scheme
* src/version.rs        — firmware version numbers and their ordering
* src/manager.rs        — hotplug device manager (polling strategy)
* src/audio/common.rs   — GET/SET parameter transport with write verification
* src/audio/messages/…  — message catalog (the Headphones family is embedded
                          as the representative; the full per-feature catalog
                          is declared external by the specification)
* src/controller/…      — control-surface session: input decoding, image
                          upload framing, command validation

Machine integers are modelled as Nat with explicit reductions modulo 2^w
where the Rust code can wrap.  IEEE-754 binary32 (f32) values are modelled
by their 32-bit pattern: byteorder's write_f32/read_f32 move exactly these
bits, and the ordering used by RangeInclusive::contains is total on the
non-NaN patterns (sign-magnitude order), which is definable on bit patterns.
Rust code that panics or bails is modelled with Option / Except.
-/

set_option maxRecDepth 4000

/-! ## Byte-level helpers (byteorder, little endian) -/

/-- The 4 little-endian bytes of a 32-bit value, as byteorder's write_u32
    produces them (source: byteorder crate semantics used throughout). -/
def u32le (n : Nat) : List Nat :=
  [n % 256, n / 256 % 256, n / 65536 % 256, n / 16777216 % 256]

/-- The 3 little-endian bytes of a 24-bit value (byteorder write_u24). -/
def u24le (n : Nat) : List Nat :=
  [n % 256, n / 256 % 256, n / 65536 % 256]

/-- byteorder read_u32 (little endian) over a 4-byte buffer. -/
def read_u32le (bs : List Nat) : Nat :=
  bs.getD 0 0 + 256 * bs.getD 1 0 + 65536 * bs.getD 2 0 + 16777216 * bs.getD 3 0

/-- byteorder read_u16 (big endian), used for the button bitmask. -/
def read_u16be (bs : List Nat) : Nat :=
  256 * bs.getD 0 0 + bs.getD 1 0

theorem read_u32le_u32le (n : Nat) (h : n < 4294967296) : read_u32le (u32le n) = n := by
  simp only [u32le, read_u32le, List.getD_cons_zero, List.getD_cons_succ]
  omega

/-! ## IEEE-754 binary32 model

An f32 is represented by its bit pattern (a Nat below 2^32). `f32_le` is the
IEEE comparison used by Rust's PartialOrd for f32: false whenever either
operand is NaN, otherwise sign-magnitude order on the patterns (so that
-0.0 and +0.0 compare equal). -/

def f32_exponent (b : Nat) : Nat := b / 8388608 % 256

def f32_mantissa (b : Nat) : Nat := b % 8388608

def f32_isNaN (b : Nat) : Bool := f32_exponent b == 255 && f32_mantissa b != 0

/-- Order key for non-NaN patterns: non-negative floats are ordered exactly
    as their bit patterns; negative floats in reverse magnitude order. -/
def f32_ordKey (b : Nat) : Int :=
  if b < 2147483648 then (b : Int) else -((b : Int) - 2147483648)

def f32_le (a b : Nat) : Bool :=
  !f32_isNaN a && !f32_isNaN b && decide (f32_ordKey a ≤ f32_ordKey b)

/-- WriteBeacn for f32 (src/types.rs): LittleEndian::write_f32, i.e. the four
    little-endian bytes of the bit pattern. -/
def f32_write_beacn (bits : Nat) : List Nat := u32le bits

/-- ReadBeacn for f32 (src/types.rs): LittleEndian::read_f32. -/
def f32_read_beacn (bs : List Nat) : Nat := read_u32le bs

/-! ## src/types.rs — range-checked value codec

The Rust code is generic over traits HasRange / FromInner / ToInner /
ReadBeacn / WriteBeacn; the generic dictionary is embedded as a structure.
RangeInclusive::contains is start <= item && item <= end under PartialOrd. -/

structure RangeTypeInstance (T U : Type) where
  lo : U
  hi : U
  le : U → U → Bool
  read_beacn : List Nat → U
  write_beacn : U → List Nat
  from_inner : U → T
  to_inner : T → U

def range_contains {T U : Type} (c : RangeTypeInstance T U) (u : U) : Bool :=
  c.le c.lo u && c.le u c.hi

/-- src/types.rs read_value: decode the primitive, range-check it (the Rust
    code panics on failure, modelled as none), wrap it. -/
def read_value {T U : Type} (c : RangeTypeInstance T U) (bytes : List Nat) : Option T :=
  let inner := c.read_beacn bytes
  if range_contains c inner then some (c.from_inner inner) else none

/-- src/types.rs write_value: unwrap to the primitive, range-check it (panic
    modelled as none), encode it. -/
def write_value {T U : Type} (c : RangeTypeInstance T U) (value : T) : Option (List Nat) :=
  let inner := c.to_inner value
  if range_contains c inner then some (c.write_beacn inner) else none

/-- src/types.rs Percent: f32 wrapper with range 0.0..=100.0.  The field is
    the f32 bit pattern. -/
structure Percent where
  val : Nat
deriving DecidableEq

/-- src/types.rs TimeFrame: f32 wrapper with range 1.0..=2000.0. -/
structure TimeFrame where
  val : Nat
deriving DecidableEq

/-- Bit patterns: 0.0 = 0x00000000, 100.0 = 0x42C80000. -/
def percentInstance : RangeTypeInstance Percent Nat :=
  { lo := 0x00000000, hi := 0x42C80000, le := f32_le,
    read_beacn := f32_read_beacn, write_beacn := f32_write_beacn,
    from_inner := Percent.mk, to_inner := Percent.val }

/-- Bit patterns: 1.0 = 0x3F800000, 2000.0 = 0x44FA0000. -/
def timeFrameInstance : RangeTypeInstance TimeFrame Nat :=
  { lo := 0x3F800000, hi := 0x44FA0000, le := f32_le,
    read_beacn := f32_read_beacn, write_beacn := f32_write_beacn,
    from_inner := TimeFrame.mk, to_inner := TimeFrame.val }

/-- src/audio/messages/mic_setup.rs MicGain (generate_range): u32 wrapper
    with range 3..=20; the u32 codec is little-endian read/write_u32 and its
    PartialOrd is the natural order. -/
structure MicGain where
  val : Nat
deriving DecidableEq

def micGainInstance : RangeTypeInstance MicGain Nat :=
  { lo := 3, hi := 20, le := fun a b => decide (a ≤ b),
    read_beacn := read_u32le, write_beacn := u32le,
    from_inner := MicGain.mk, to_inner := MicGain.val }

/-! ## src/types.rs — PackedEnumKey

Generic over two strum-iterable enumerations B and K, each convertible to u8.
The iteration lists and conversion functions are passed explicitly. -/

structure PackedEnumKey (B K : Type) where
  upper : B
  lower : K
deriving DecidableEq

/-- src/types.rs PackedEnumKey::to_encoded: (upper << 4) | (lower & 0x0f),
    in u8 arithmetic (the shift discards bits beyond 8). -/
def PackedEnumKey.to_encoded {B K : Type} (bto : B → Nat) (kto : K → Nat)
    (p : PackedEnumKey B K) : Nat :=
  ((bto p.upper <<< 4) % 256) ||| (kto p.lower &&& 0x0f)

/-- src/types.rs PackedEnumKey::from_encoded: split the nibbles and look each
    one up in the enumeration's iterator; None when either nibble matches no
    enumerator. -/
def PackedEnumKey.from_encoded {B K : Type} (biter : List B) (bto : B → Nat)
    (kiter : List K) (kto : K → Nat) (encoded : Nat) : Option (PackedEnumKey B K) :=
  let upper := (encoded &&& 0xf0) >>> 4
  let lower := encoded &&& 0x0f
  match biter.find? (fun b => bto b == upper), kiter.find? (fun k => kto k == lower) with
  | some b, some k => some ⟨b, k⟩
  | _, _ => none

/-! ## src/version.rs — VersionNumber -/

/-- src/version.rs VersionNumber(major, minor, patch, build). -/
structure VersionNumber where
  major : Nat
  minor : Nat
  patch : Nat
  build : Nat
deriving DecidableEq

/-- src/version.rs Ord for VersionNumber: componentwise lexicographic. -/
def VersionNumber.cmp (a b : VersionNumber) : Ordering :=
  match compare a.major b.major with
  | .gt => .gt
  | .lt => .lt
  | .eq =>
    match compare a.minor b.minor with
    | .gt => .gt
    | .lt => .lt
    | .eq =>
      match compare a.patch b.patch with
      | .gt => .gt
      | .lt => .lt
      | .eq =>
        match compare a.build b.build with
        | .gt => .gt
        | .lt => .lt
        | .eq => .eq

/-- Rust's derived `<` from Ord::cmp. -/
def VersionNumber.lt (a b : VersionNumber) : Bool := a.cmp b == .lt

/-- Rust's derived `<=` from Ord::cmp. -/
def VersionNumber.le (a b : VersionNumber) : Bool := a.cmp b != .gt

/-! ## src/manager.rs — hotplug device manager (polling strategy) -/

def VENDOR_BEACN : Nat := 0x33ae
def PID_BEACN_MIC : Nat := 0x0001
def PID_BEACN_STUDIO : Nat := 0x0003
def PID_BEACN_MIX : Nat := 0x0004
def PID_BEACN_MIX_CREATE : Nat := 0x0007

/-- src/manager.rs DeviceType. -/
inductive DeviceType where
  | beacnMic
  | beacnStudio
  | beacnMix
  | beacnMixCreate
deriving DecidableEq

/-- src/manager.rs DeviceLocation: bus number and address. -/
structure DeviceLocation where
  bus_number : Nat
  address : Nat
deriving DecidableEq

instance : BEq DeviceLocation := ⟨fun a b => decide (a = b)⟩

/-- src/manager.rs HotPlugMessage. -/
inductive HotPlugMessage where
  | deviceAttached (l : DeviceLocation) (t : DeviceType)
  | deviceRemoved (l : DeviceLocation)
  | threadStopped
deriving DecidableEq

/-- src/manager.rs BeacnMicManager: set of known device locations.  The
    mpsc sender is modelled by returning the list of emitted messages. -/
structure BeacnMicManager where
  known_devices : List DeviceLocation
deriving DecidableEq

/-- src/manager.rs BeacnMicManager::device_connected: a duplicate arrival for
    an already known location is ignored; otherwise the location is recorded
    and exactly one DeviceAttached is emitted. -/
def device_connected (m : BeacnMicManager) (device : DeviceLocation)
    (device_type : DeviceType) : BeacnMicManager × List HotPlugMessage :=
  if m.known_devices.contains device then
    (m, [])
  else
    (⟨m.known_devices ++ [device]⟩, [.deviceAttached device device_type])

/-- src/manager.rs BeacnMicManager::device_removed: retain all other
    locations and emit DeviceRemoved. -/
def device_removed (m : BeacnMicManager) (device : DeviceLocation) :
    BeacnMicManager × List HotPlugMessage :=
  (⟨m.known_devices.filter (fun e => e != device)⟩, [.deviceRemoved device])

/-- One USB device as seen by context.devices() enumeration. -/
structure EnumeratedDevice where
  location : DeviceLocation
  vendor_id : Nat
  product_id : Nat
deriving DecidableEq

/-- One product-id arm of the scan loop in src/manager.rs hotplug_poll: when
    the descriptor matches and the location is unknown, push it to
    found_devices and call device_connected. -/
def poll_check_pid (pid : Nat) (dtype : DeviceType) (dev : EnumeratedDevice)
    (st : BeacnMicManager × List DeviceLocation × List HotPlugMessage) :
    BeacnMicManager × List DeviceLocation × List HotPlugMessage :=
  let (m, found, msgs) := st
  if dev.product_id == pid && !(m.known_devices.contains dev.location) then
    let (m2, ms) := device_connected m dev.location dtype
    (m2, found ++ [dev.location], msgs ++ ms)
  else
    (m, found, msgs)

/-- The body of the enumeration loop of hotplug_poll for one device: the
    vendor filter followed by the four sequential product-id checks. -/
def poll_scan_device (st : BeacnMicManager × List DeviceLocation × List HotPlugMessage)
    (dev : EnumeratedDevice) :
    BeacnMicManager × List DeviceLocation × List HotPlugMessage :=
  if dev.vendor_id == VENDOR_BEACN then
    (poll_check_pid PID_BEACN_MIX_CREATE .beacnMixCreate dev
      (poll_check_pid PID_BEACN_MIX .beacnMix dev
        (poll_check_pid PID_BEACN_STUDIO .beacnStudio dev
          (poll_check_pid PID_BEACN_MIC .beacnMic dev st))))
  else
    st

/-- The removal sweep of hotplug_poll: iterate over a clone of the known
    list taken after the scan; any known location absent from found_devices
    is removed. -/
def poll_removals (found : List DeviceLocation) (m : BeacnMicManager)
    (msgs : List HotPlugMessage) (pending : List DeviceLocation) :
    BeacnMicManager × List HotPlugMessage :=
  match pending with
  | [] => (m, msgs)
  | dev :: rest =>
    if !(found.contains dev) then
      let (m2, ms) := device_removed m dev
      poll_removals found m2 (msgs ++ ms) rest
    else
      poll_removals found m msgs rest

/-- One iteration of the loop in src/manager.rs hotplug_poll, given the
    enumeration snapshot for this 500 ms cycle. -/
def hotplug_poll_cycle (m : BeacnMicManager) (snapshot : List EnumeratedDevice) :
    BeacnMicManager × List HotPlugMessage :=
  let (m1, found, msgs) := snapshot.foldl poll_scan_device (m, [], [])
  poll_removals found m1 msgs m1.known_devices

/-- hotplug_poll run over a sequence of enumeration snapshots; yields the
    per-cycle emitted messages. -/
def hotplug_poll_run (m : BeacnMicManager) (snapshots : List (List EnumeratedDevice)) :
    BeacnMicManager × List (List HotPlugMessage) :=
  match snapshots with
  | [] => (m, [])
  | s :: rest =>
    let (m1, msgs) := hotplug_poll_cycle m s
    let (m2, trace) := hotplug_poll_run m1 rest
    (m2, msgs :: trace)

/-! ## src/audio/common.rs — parameter transport

USB I/O is modelled by recording the operations the code issues (endpoint,
payload, timeout) and parameterizing over the 8-byte buffer the device
returns to the GET read.  anyhow::bail! is modelled with Except. -/

/-- One USB transfer issued by the transport. -/
inductive UsbOp where
  | writeBulk (endpoint : Nat) (data : List Nat) (timeoutMs : Nat)
  | readBulk (endpoint : Nat) (len : Nat) (timeoutMs : Nat)
deriving DecidableEq

/-- The bail!/panic cases of the audio messaging code. -/
inductive BeacnError where
  | commandNotValid
  | invalidResponse
  | valueNotChanged
  | panicked
deriving DecidableEq

/-- src/audio/common.rs param_lookup: write key(3)+0xA3 with a 3 s timeout,
    read an 8-byte response with the same timeout, validate that the response
    echoes the first two request bytes and carries opcode 0xA4 at offset 3.
    `resp` is the buffer the device returns to the read. -/
def param_lookup (key : List Nat) (resp : List Nat) :
    List UsbOp × Except BeacnError (List Nat) :=
  let request := key ++ [0xa3]
  let ops := [UsbOp.writeBulk 0x03 request 3000, UsbOp.readBulk 0x83 8 3000]
  if resp.take 2 = request.take 2 ∧ resp.getD 3 0 = 0xa4 then
    (ops, .ok resp)
  else
    (ops, .error .invalidResponse)

/-- src/audio/common.rs param_set: write key(3)+0xA4+value(4) with a 200 ms
    timeout, then param_lookup the same key and compare the value bytes
    [4..8] of the response with those of the request; a mismatch is the
    distinct "Value was not changed on the device!" error. -/
def param_set (key : List Nat) (value : List Nat) (resp : List Nat) :
    List UsbOp × Except BeacnError (List Nat) :=
  let request := key ++ [0xa4] ++ value
  let ops := [UsbOp.writeBulk 0x03 request 200]
  let (lops, lres) := param_lookup key resp
  match lres with
  | .error e => (ops ++ lops, .error e)
  | .ok new_value =>
    if request.drop 4 ≠ new_value.drop 4 then
      (ops ++ lops, .error .valueNotChanged)
    else
      (ops ++ lops, .ok new_value)

/-! ## src/audio/messages/expander.rs — the packed enumerations

ExpanderMode packs into the upper nibble and ExpanderKeys into the lower
nibble of the first key byte.  EnumIter iterates in declaration order. -/

/-- src/audio/messages/expander.rs ExpanderMode (discriminants 0x00, 0x01). -/
inductive ExpanderMode where
  | simple
  | advanced
deriving DecidableEq

def ExpanderMode.toU8 : ExpanderMode → Nat
  | .simple => 0x00
  | .advanced => 0x01

/-- strum EnumIter order for ExpanderMode. -/
def ExpanderMode.iterList : List ExpanderMode := [.simple, .advanced]

/-- src/audio/messages/expander.rs ExpanderKeys (discriminants 3,4,5,1,2). -/
inductive ExpanderKeys where
  | threshold
  | ratio
  | enabled
  | attack
  | release
deriving DecidableEq

def ExpanderKeys.toU8 : ExpanderKeys → Nat
  | .threshold => 0x03
  | .ratio => 0x04
  | .enabled => 0x05
  | .attack => 0x01
  | .release => 0x02

/-- strum EnumIter order for ExpanderKeys. -/
def ExpanderKeys.iterList : List ExpanderKeys :=
  [.threshold, .ratio, .enabled, .attack, .release]

/-- from_encoded at the (ExpanderMode, ExpanderKeys) instantiation used by
    the expander message family. -/
def expander_from_encoded (encoded : Nat) : Option (PackedEnumKey ExpanderMode ExpanderKeys) :=
  PackedEnumKey.from_encoded ExpanderMode.iterList ExpanderMode.toU8
    ExpanderKeys.iterList ExpanderKeys.toU8 encoded

/-- to_encoded at the (ExpanderMode, ExpanderKeys) instantiation. -/
def expander_to_encoded (p : PackedEnumKey ExpanderMode ExpanderKeys) : Nat :=
  PackedEnumKey.to_encoded ExpanderMode.toU8 ExpanderKeys.toU8 p

/-! ## src/audio/messages/headphones.rs — the Headphones catalog family

The parameter catalog (12 near-identical per-feature families) is declared
an external collaborator by the specification; the Headphones family is
embedded in full as the representative, since it is the only family that
declares a non-trivial minimum firmware version. -/

/-- src/types.rs ReadBeacn for bool: little-endian u32, 0 or 1; anything
    else panics (modelled as none). -/
def bool_read_beacn (buf : List Nat) : Option Bool :=
  let value := read_u32le buf
  if value ≤ 1 then some (value == 1) else none

/-- src/types.rs WriteBeacn for bool: little-endian 0/1. -/
def bool_write_beacn (b : Bool) : List Nat := u32le (if b then 1 else 0)

/-- src/audio/messages/headphones.rs HeadphoneTypes (0x00..0x03). -/
inductive HeadphoneTypes where
  | lineLevel
  | normalPower
  | highImpedance
  | inEarMonitors
deriving DecidableEq

def HeadphoneTypes.toU8 : HeadphoneTypes → Nat
  | .lineLevel => 0x00
  | .normalPower => 0x01
  | .highImpedance => 0x02
  | .inEarMonitors => 0x03

def HeadphoneTypes.iterList : List HeadphoneTypes :=
  [.lineLevel, .normalPower, .highImpedance, .inEarMonitors]

/-- ReadBeacn for HeadphoneTypes: find the enumerator whose discriminant
    equals the little-endian u32, panic (none) otherwise. -/
def HeadphoneTypes.read_beacn (buf : List Nat) : Option HeadphoneTypes :=
  HeadphoneTypes.iterList.find? (fun v => v.toU8 == read_u32le buf)

def HeadphoneTypes.write_beacn (v : HeadphoneTypes) : List Nat := u32le v.toU8

/-- src/audio/messages/headphones.rs DeviceMode (0x00..0x02). -/
inductive DeviceMode where
  | compliancy
  | studioDefault
  | micDefault
deriving DecidableEq

def DeviceMode.toU8 : DeviceMode → Nat
  | .compliancy => 0x00
  | .studioDefault => 0x01
  | .micDefault => 0x02

def DeviceMode.iterList : List DeviceMode := [.compliancy, .studioDefault, .micDefault]

def DeviceMode.read_beacn (buf : List Nat) : Option DeviceMode :=
  DeviceMode.iterList.find? (fun v => v.toU8 == read_u32le buf)

def DeviceMode.write_beacn (v : DeviceMode) : List Nat := u32le v.toU8

/-- generate_range HPLevel: f32 in -70.0..=-0.0 (bits 0xC28C0000, 0x80000000). -/
structure HPLevel where
  val : Nat
deriving DecidableEq

def hpLevelInstance : RangeTypeInstance HPLevel Nat :=
  { lo := 0xC28C0000, hi := 0x80000000, le := f32_le,
    read_beacn := f32_read_beacn, write_beacn := f32_write_beacn,
    from_inner := HPLevel.mk, to_inner := HPLevel.val }

/-- generate_range HPMicMonitorLevel: f32 in -100.0..=6.0 (bits 0xC2C80000, 0x40C00000). -/
structure HPMicMonitorLevel where
  val : Nat
deriving DecidableEq

def hpMicMonitorLevelInstance : RangeTypeInstance HPMicMonitorLevel Nat :=
  { lo := 0xC2C80000, hi := 0x40C00000, le := f32_le,
    read_beacn := f32_read_beacn, write_beacn := f32_write_beacn,
    from_inner := HPMicMonitorLevel.mk, to_inner := HPMicMonitorLevel.val }

/-- generate_range HPMicOutputGain: f32 in 0.0..=12.0 (bits 0x00000000, 0x41400000). -/
structure HPMicOutputGain where
  val : Nat
deriving DecidableEq

def hpMicOutputGainInstance : RangeTypeInstance HPMicOutputGain Nat :=
  { lo := 0x00000000, hi := 0x41400000, le := f32_le,
    read_beacn := f32_read_beacn, write_beacn := f32_write_beacn,
    from_inner := HPMicOutputGain.mk, to_inner := HPMicOutputGain.val }

/-- src/audio/messages/headphones.rs Headphones. -/
inductive Headphones where
  | getHeadphoneLevel
  | headphoneLevel (v : HPLevel)
  | getMicMonitor
  | micMonitor (v : HPMicMonitorLevel)
  | getStudioMicMonitor
  | studioMicMonitor (v : HPMicMonitorLevel)
  | getMicChannelsLinked
  | micChannelsLinked (v : Bool)
  | getStudioChannelsLinked
  | studioChannelsLinked (v : Bool)
  | getMicOutputGain
  | micOutputGain (v : HPMicOutputGain)
  | getHeadphoneType
  | headphoneType (v : HeadphoneTypes)
  | getFXEnabled
  | fxEnabled (v : Bool)
  | getStudioDriverless
  | studioDriverless (v : Bool)
  | getMicClassCompliant
  | micClassCompliant (v : Bool)
deriving DecidableEq

/-- src/audio/messages/mod.rs DeviceMessageType. -/
inductive DeviceMessageType where
  | common
  | beacnMic
  | beacnStudio
deriving DecidableEq

/-- src/audio/messages/mod.rs VERSION_ALL. -/
def VERSION_ALL : VersionNumber := ⟨0, 0, 0, 0⟩

/-- src/audio/messages/headphones.rs MIC_CLASS_COMPLIANT_VERSION. -/
def MIC_CLASS_COMPLIANT_VERSION : VersionNumber := ⟨1, 2, 0, 188⟩

def Headphones.get_device_message_type : Headphones → DeviceMessageType
  | .getMicMonitor => .beacnMic
  | .micMonitor _ => .beacnMic
  | .getStudioMicMonitor => .beacnStudio
  | .studioMicMonitor _ => .beacnStudio
  | .getMicChannelsLinked => .beacnMic
  | .micChannelsLinked _ => .beacnMic
  | .getStudioChannelsLinked => .beacnStudio
  | .studioChannelsLinked _ => .beacnStudio
  | .getStudioDriverless => .beacnStudio
  | .studioDriverless _ => .beacnStudio
  | .getMicClassCompliant => .beacnMic
  | .micClassCompliant _ => .beacnMic
  | _ => .common

def Headphones.get_message_minimum_version : Headphones → VersionNumber
  | .getMicClassCompliant => MIC_CLASS_COMPLIANT_VERSION
  | .micClassCompliant _ => MIC_CLASS_COMPLIANT_VERSION
  | _ => VERSION_ALL

def Headphones.is_device_message_set : Headphones → Bool
  | .headphoneLevel _ => true
  | .micMonitor _ => true
  | .studioMicMonitor _ => true
  | .micChannelsLinked _ => true
  | .studioChannelsLinked _ => true
  | .micOutputGain _ => true
  | .headphoneType _ => true
  | .fxEnabled _ => true
  | .studioDriverless _ => true
  | .micClassCompliant _ => true
  | _ => false

def Headphones.to_beacn_key : Headphones → List Nat
  | .headphoneLevel _ | .getHeadphoneLevel => [0x04, 0x00]
  | .micMonitor _ | .getMicMonitor => [0x06, 0x00]
  | .studioMicMonitor _ | .getStudioMicMonitor => [0x07, 0x00]
  | .micChannelsLinked _ | .getMicChannelsLinked => [0x07, 0x00]
  | .studioChannelsLinked _ | .getStudioChannelsLinked => [0x08, 0x00]
  | .micOutputGain _ | .getMicOutputGain => [0x10, 0x00]
  | .headphoneType _ | .getHeadphoneType => [0x11, 0x00]
  | .fxEnabled _ | .getFXEnabled => [0x12, 0x00]
  | .studioDriverless _ | .getStudioDriverless
  | .micClassCompliant _ | .getMicClassCompliant => [0x14, 0x00]

/-- src/audio/messages/headphones.rs to_beacn_value; calling it on a getter
    panics in Rust (none here). -/
def Headphones.to_beacn_value : Headphones → Option (List Nat)
  | .headphoneLevel v => write_value hpLevelInstance v
  | .micMonitor v => write_value hpMicMonitorLevelInstance v
  | .studioMicMonitor v => write_value hpMicMonitorLevelInstance v
  | .micChannelsLinked v => some (bool_write_beacn v)
  | .studioChannelsLinked v => some (bool_write_beacn v)
  | .micOutputGain v => write_value hpMicOutputGainInstance v
  | .headphoneType v => some (HeadphoneTypes.write_beacn v)
  | .fxEnabled v => some (bool_write_beacn v)
  | .studioDriverless v =>
    some (if v then DeviceMode.write_beacn .compliancy
          else DeviceMode.write_beacn .studioDefault)
  | .micClassCompliant v =>
    some (if v then DeviceMode.write_beacn .compliancy
          else DeviceMode.write_beacn .micDefault)
  | _ => none

/-- src/audio/messages/headphones.rs from_beacn, dispatching on key[0];
    unknown keys and wrong device families panic in Rust (none here). -/
def Headphones.from_beacn (key : List Nat) (value : List Nat)
    (device_type : DeviceType) : Option Headphones :=
  match key.getD 0 0 with
  | 0x04 => (read_value hpLevelInstance value).map .headphoneLevel
  | 0x06 => (read_value hpMicMonitorLevelInstance value).map .micMonitor
  | 0x07 =>
    match device_type with
    | .beacnMic => (bool_read_beacn value).map .micChannelsLinked
    | .beacnStudio => (read_value hpMicMonitorLevelInstance value).map .studioMicMonitor
    | _ => none
  | 0x08 => (bool_read_beacn value).map .studioChannelsLinked
  | 0x10 => (read_value hpMicOutputGainInstance value).map .micOutputGain
  | 0x11 => (HeadphoneTypes.read_beacn value).map .headphoneType
  | 0x12 => (bool_read_beacn value).map .fxEnabled
  | 0x14 =>
    (DeviceMode.read_beacn value).bind fun mode =>
      match device_type with
      | .beacnMic => some (.micClassCompliant (mode != .micDefault))
      | .beacnStudio => some (.studioDriverless (mode != .studioDefault))
      | _ => none
  | _ => none

/-! ## src/audio/messages/mod.rs — Message, and src/audio/common.rs — messaging

The Message enum carries the 12 catalog families; only the Headphones family
is embedded (the catalog is external to the core per the specification).
All dispatch in mod.rs is a uniform per-variant delegation. -/

/-- src/audio/messages/mod.rs Message (Headphones family embedded;
    BeacnMessage::Headphones carries top key byte 0x00). -/
inductive Message where
  | headphones (v : Headphones)
deriving DecidableEq

def Message.is_device_message_set : Message → Bool
  | .headphones v => v.is_device_message_set

def Message.get_device_message_type : Message → DeviceMessageType
  | .headphones v => v.get_device_message_type

def Message.get_message_minimum_version : Message → VersionNumber
  | .headphones v => v.get_message_minimum_version

/-- src/audio/messages/mod.rs Message::to_beacn_key: top byte from the
    BeacnMessage discriminant, two sub-key bytes from the family. -/
def Message.to_beacn_key : Message → List Nat
  | .headphones v => 0x00 :: v.to_beacn_key

def Message.to_beacn_value : Message → Option (List Nat)
  | .headphones v => v.to_beacn_value

/-- src/audio/messages/mod.rs Message::from_beacn_message: dispatch on
    bytes[0]; key is bytes[1..3] and value bytes[4..8].  Families other than
    Headphones (0x00) are not embedded. -/
def Message.from_beacn_message (bytes : List Nat) (device_type : DeviceType) :
    Option Message :=
  match bytes.getD 0 0 with
  | 0x00 =>
    (Headphones.from_beacn ((bytes.drop 1).take 2) ((bytes.drop 4).take 4)
      device_type).map .headphones
  | _ => none

/-- The per-device state the messaging trait sees: its DeviceType and the
    firmware version negotiated at attach (BeacnDeviceHandle.version). -/
structure AudioDevice where
  device_type : DeviceType
  version : VersionNumber
deriving DecidableEq

/-- src/audio/common.rs is_command_valid: only the device-family
    applicability tag is checked. -/
def is_command_valid (dev : AudioDevice) (message : Message) : Bool :=
  match message.get_device_message_type with
  | .common => true
  | .beacnMic => dev.device_type == .beacnMic
  | .beacnStudio => dev.device_type == .beacnStudio

/-- src/audio/common.rs fetch_value: validate applicability, then
    param_lookup and re-parse the response.  `resp` is the 8-byte buffer the
    device returns to the GET read. -/
def fetch_value (dev : AudioDevice) (message : Message) (resp : List Nat) :
    List UsbOp × Except BeacnError Message :=
  if !is_command_valid dev message then
    ([], .error .commandNotValid)
  else
    let key := message.to_beacn_key
    let (ops, r) := param_lookup key resp
    (ops,
      r.bind fun param =>
        match Message.from_beacn_message param dev.device_type with
        | some m => .ok m
        | none => .error .panicked)

/-- src/audio/common.rs set_value: validate applicability, then param_set
    and re-parse the result. -/
def set_value (dev : AudioDevice) (message : Message) (resp : List Nat) :
    List UsbOp × Except BeacnError Message :=
  if !is_command_valid dev message then
    ([], .error .commandNotValid)
  else
    let key := message.to_beacn_key
    match message.to_beacn_value with
    | none => ([], .error .panicked)
    | some value =>
      let (ops, r) := param_set key value resp
      (ops,
        r.bind fun param =>
          match Message.from_beacn_message param dev.device_type with
          | some m => .ok m
          | none => .error .panicked)

/-! ## src/controller/mod.rs — control-surface enums and commands -/

/-- src/controller/mod.rs ButtonState. -/
inductive ButtonState where
  | press
  | release
deriving DecidableEq

/-- src/controller/mod.rs Buttons with their bit positions; bits 3..7 of the
    16-bit mask correspond to no enumerator. -/
inductive Buttons where
  | audienceMix
  | pageLeft
  | pageRight
  | dial1
  | dial2
  | dial3
  | dial4
  | audience1
  | audience2
  | audience3
  | audience4
deriving DecidableEq

/-- The discriminants of Buttons (`button as u8`). -/
def Buttons.code : Buttons → Nat
  | .audienceMix => 0
  | .pageLeft => 1
  | .pageRight => 2
  | .dial1 => 8
  | .dial2 => 9
  | .dial3 => 10
  | .dial4 => 11
  | .audience1 => 12
  | .audience2 => 13
  | .audience3 => 14
  | .audience4 => 15

/-- strum EnumIter order for Buttons. -/
def Buttons.iterList : List Buttons :=
  [.audienceMix, .pageLeft, .pageRight, .dial1, .dial2, .dial3, .dial4,
   .audience1, .audience2, .audience3, .audience4]

/-- src/controller/mod.rs Dials. -/
inductive Dials where
  | dial1
  | dial2
  | dial3
  | dial4
deriving DecidableEq

def Dials.code : Dials → Nat
  | .dial1 => 0
  | .dial2 => 1
  | .dial3 => 2
  | .dial4 => 3

def Dials.iterList : List Dials := [.dial1, .dial2, .dial3, .dial4]

/-- src/controller/mod.rs Interactions: the events sent to the subscriber.
    Dial deltas are the i8 reinterpretation of the report byte. -/
inductive Interactions where
  | buttonPress (b : Buttons) (s : ButtonState)
  | dialChanged (d : Dials) (delta : Int)
deriving DecidableEq

/-- src/controller/mod.rs ControlThreadSender: the session command queue.
    Durations are modelled in nanoseconds; colours as four raw bytes. -/
inductive ControlThreadSender where
  | stop
  | keepAlive
  | setEnabled (enabled : Bool)
  | setImage (x y : Nat) (img : List Nat)
  | setDimTimeout (ns : Nat)
  | setActiveBrightness (percent : Nat)
  | setButtonBrightness (value : Nat)
  | setButtonColour (button : Nat) (blue green red alpha : Nat)
deriving DecidableEq

/-! ## src/controller/common.rs — input decoding (handle_interaction) -/

/-- `as i8` reinterpretation of a byte. -/
def as_i8 (v : Nat) : Int := if v < 128 then (v : Int) else (v : Int) - 256

/-- The dial half of handle_interaction: message[4..8] holds one signed
    delta byte per dial; each nonzero byte emits one DialChanged. -/
def dial_events (message : List Nat) : List Interactions :=
  Dials.iterList.filterMap fun dial =>
    if message.getD (4 + dial.code) 0 ≠ 0 then
      some (.dialChanged dial (as_i8 (message.getD (4 + dial.code) 0)))
    else
      none

/-- The button half of handle_interaction: for each enumerator of Buttons
    whose bit differs between the previous mask and the current one, emit one
    Press (bit now 1) or Release (bit now 0). -/
def button_events (last buttons : Nat) : List Interactions :=
  Buttons.iterList.filterMap fun button =>
    if (last >>> button.code) &&& 1 ≠ (buttons >>> button.code) &&& 1 then
      some (.buttonPress button
        (if (buttons >>> button.code) &&& 1 == 1 then .press else .release))
    else
      none

/-- src/controller/common.rs handle_interaction: decode the 64-byte report
    against the previous button mask; returns (any interaction seen, new
    button mask, events sent to the subscriber).  The button mask is the
    big-endian u16 at message[8..10]. -/
def handle_interaction (message : List Nat) (last : Nat) :
    Bool × Nat × List Interactions :=
  (!(dial_events message ++
      button_events last (read_u16be ((message.drop 8).take 2))).isEmpty,
   read_u16be ((message.drop 8).take 2),
   dial_events message ++ button_events last (read_u16be ((message.drop 8).take 2)))

/-! ## src/controller/common.rs — SetImage transmission framing -/

/-- Overwrite buf[off .. off+data.length] with data (a Rust slice
    copy_from_slice). -/
def write_slice (buf : List Nat) (off : Nat) (data : List Nat) : List Nat :=
  buf.take off ++ data ++ buf.drop (off + data.length)

/-- Rust slice::chunks(1020): consecutive chunks of at most 1020 bytes; an
    empty slice yields no chunks.  Structural recursion on a fuel argument
    (the list length bounds the number of chunks) so the definition reduces
    inside the kernel. -/
def chunks1020Aux (fuel : Nat) (l : List Nat) : List (List Nat) :=
  match fuel, l with
  | _, [] => []
  | 0, _ => []
  | fuel + 1, x :: xs => ((x :: xs).take 1020) :: chunks1020Aux fuel ((x :: xs).drop 1020)

def chunks1020 (l : List Nat) : List (List Nat) := chunks1020Aux l.length l

/-- The loop body of the SetImage branch of spawn_event_handler: the 1024
    byte output buffer persists between iterations; every chunk is framed as
    [u24le index][0x50][chunk] and sent whole; after the last chunk the same
    buffer is resent with the first three bytes forced to 0xFF, the byte
    0x50 at offset 3, and img.len()-1, x, y written at offsets 4, 8, 12. -/
def set_image_loop (x y imgLen : Nat) (buf : List Nat) (index : Nat) :
    List (List Nat) → List (List Nat)
  | [] => []
  | chunk :: rest =>
    let b1 := write_slice buf 0 (u24le index)
    let b2 := write_slice b1 3 [0x50]
    let b3 := write_slice b2 4 chunk
    if rest.isEmpty then
      let f1 := write_slice b3 0 [0xff, 0xff, 0xff]
      let f2 := write_slice f1 3 [0x50]
      let f3 := write_slice f2 4 (u32le (imgLen - 1))
      let f4 := write_slice f3 8 (u32le x)
      let f5 := write_slice f4 12 (u32le y)
      [b3, f5]
    else
      b3 :: set_image_loop x y imgLen b3 (index + 1) rest

/-- The packets the SetImage branch writes to the interrupt endpoint for a
    queued SetImage(x, y, img), in order. -/
def set_image_packets (x y : Nat) (img : List Nat) : List (List Nat) :=
  set_image_loop x y img.length (List.replicate 1024 0) 0 (chunks1020 img)

/-! ## src/controller/common.rs — command validation -/

/-- The bail! cases of the public control-surface commands. -/
inductive ControlError where
  | positionOutOfRange
  | imageInfoUnavailable
  | overflowWidth
  | overflowHeight
  | dimTimeoutRange
deriving DecidableEq

/-- src/controller/common.rs set_image validation: reject when the origin
    lies outside the display, then decode the JPEG header (the external
    jpeg_decoder crate; its reported (width, height) — or its failure — is
    the `info` parameter), and reject when origin + dimensions overflow the
    display; only then queue SetImage.  The Mix and Mix Create both report a
    display of (800, 480). -/
def set_image (displayW displayH x y : Nat) (info : Option (Nat × Nat))
    (img : List Nat) : Except ControlError ControlThreadSender :=
  if x > displayW ∨ y > displayH then
    .error .positionOutOfRange
  else
    match info with
    | none => .error .imageInfoUnavailable
    | some (w, h) =>
      if x + w > displayW then
        .error .overflowWidth
      else if y + h > displayH then
        .error .overflowHeight
      else
        .ok (.setImage x y img)

/-- src/controller/common.rs set_dim_timeout: reject a timeout above 300 s
    or below 30 s, otherwise queue SetDimTimeout.  Durations in nanoseconds. -/
def set_dim_timeout (ns : Nat) : Except ControlError ControlThreadSender :=
  if ns > 300000000000 ∨ ns < 30000000000 then
    .error .dimTimeoutRange
  else
    .ok (.setDimTimeout ns)

/-! ## Theorems -/

instance {ε α : Type} [DecidableEq ε] [DecidableEq α] : DecidableEq (Except ε α) :=
  fun x y =>
    match x, y with
    | .ok a, .ok b =>
      if h : a = b then .isTrue (congrArg Except.ok h)
      else .isFalse (fun hh => h (Except.ok.inj hh))
    | .error a, .error b =>
      if h : a = b then .isTrue (congrArg Except.error h)
      else .isFalse (fun hh => h (Except.error.inj hh))
    | .ok _, .error _ => .isFalse (fun hh => Except.noConfusion hh)
    | .error _, .ok _ => .isFalse (fun hh => Except.noConfusion hh)

/-- C10: set_dim_timeout returns an error without queuing for any duration
    shorter than 30 s or longer than 300 s, and queues the SetDimTimeout
    command exactly when 30 s <= d <= 300 s (durations in nanoseconds). -/
theorem C10_set_dim_timeout_range (ns : Nat) :
    (set_dim_timeout ns = .ok (.setDimTimeout ns) ↔
      30000000000 ≤ ns ∧ ns ≤ 300000000000) ∧
    (set_dim_timeout ns = .error .dimTimeoutRange ↔
      (ns < 30000000000 ∨ 300000000000 < ns)) := by
  unfold set_dim_timeout
  split_ifs with h <;> simp <;> omega

/-- C9: a SetImage request whose origin plus decoded JPEG dimensions
    overflow the display is rejected before anything is queued; in
    particular 100 by 50 at (750, 450) on the 800 by 480 display. -/
theorem C9_set_image_rejects_overflow (displayW displayH x y w h : Nat)
    (img : List Nat) (hover : displayW < x + w ∨ displayH < y + h) :
    ∃ e, set_image displayW displayH x y (some (w, h)) img = .error e := by
  unfold set_image
  dsimp only
  split_ifs with h1 h2 h3
  · exact ⟨_, rfl⟩
  · exact ⟨_, rfl⟩
  · exact ⟨_, rfl⟩
  · exfalso; omega

/-- Witness for C9 at the claim's concrete instance: a 100 by 50 image at
    (750, 450) on an 800 by 480 display is rejected. -/
theorem C9_witness :
    ∃ e, set_image 800 480 750 450 (some (100, 50)) [] = Except.error e :=
  C9_set_image_rejects_overflow 800 480 750 450 100 50 [] (Or.inl (by decide))

/-- The enumeration snapshot used against the polling manager: one Beacn Mic
    at bus 1, address 5, present in every snapshot. -/
def pollLocation : DeviceLocation := ⟨1, 5⟩

def pollDevice : EnumeratedDevice := ⟨pollLocation, VENDOR_BEACN, PID_BEACN_MIC⟩

/-- C2: evaluating hotplug_poll on three identical snapshots that all
    contain the same device.  Because the scan loop adds only newly seen
    locations to found_devices, a still-present known device is missing from
    found_devices and the removal sweep drops it: the second cycle emits a
    spurious Removed and the third re-emits Attached, violating the
    exactly-one-event-per-transition claim. -/
theorem C2_poll_oscillates :
    hotplug_poll_run ⟨[]⟩ [[pollDevice], [pollDevice], [pollDevice]] =
      (⟨[pollLocation]⟩,
       [[.deviceAttached pollLocation .beacnMic],
        [.deviceRemoved pollLocation],
        [.deviceAttached pollLocation .beacnMic]]) := by
  decide

/-- C6: packed-key roundtrip for the (ExpanderMode, ExpanderKeys)
    enumerations, and failure of from_encoded on every byte either of whose
    nibbles matches no enumerator. -/
theorem C6_packed_key_roundtrip :
    (∀ b k, expander_from_encoded (expander_to_encoded ⟨b, k⟩) = some ⟨b, k⟩) ∧
    (∀ e : Fin 256,
      (ExpanderMode.iterList.find? (fun b => b.toU8 == (e.val &&& 0xf0) >>> 4) = none ∨
       ExpanderKeys.iterList.find? (fun k => k.toU8 == e.val &&& 0x0f) = none) →
      expander_from_encoded e.val = none) := by
  constructor
  · intro b k; cases b <;> cases k <;> rfl
  · decide

/-- Witness for C6: byte 0x26 has upper nibble 2, which matches no
    ExpanderMode enumerator, so decoding fails. -/
theorem C6_witness : expander_from_encoded 0x26 = none :=
  C6_packed_key_roundtrip.2 ⟨0x26, by decide⟩ (Or.inl (by decide))

/-- C8: evaluation of the SetImage transmission at a 4-byte payload: the
    chunk packet is framed as claimed, but the final packet's length field
    holds payload length minus one (3, not 4), contradicting both the claim
    and the code's own comment about sending the total size. -/
theorem C8_final_packet_length_off_by_one :
    (set_image_packets 0 0 [1, 2, 3, 4]).length = 2 ∧
    ((set_image_packets 0 0 [1, 2, 3, 4]).headD []).take 8 =
      [0, 0, 0, 0x50, 1, 2, 3, 4] ∧
    ((set_image_packets 0 0 [1, 2, 3, 4]).getLastD []).take 16 =
      [0xff, 0xff, 0xff, 0x50, 3, 0, 0, 0, 0, 0, 0, 0, 0, 0, 0, 0] := by
  decide

/-- C3 counterexample: Headphones::GetMicClassCompliant declares minimum
    firmware (1,2,0,188); on a Beacn Mic reporting firmware (1,2,0,80) —
    strictly below the minimum — fetch_value still performs the GET
    write/read and returns success, so the transport does not reject
    messages whose minimum firmware exceeds the connected version. -/
theorem C3_counterexample :
    VersionNumber.lt ⟨1, 2, 0, 80⟩
      (Message.get_message_minimum_version (.headphones .getMicClassCompliant)) = true ∧
    fetch_value ⟨.beacnMic, ⟨1, 2, 0, 80⟩⟩ (.headphones .getMicClassCompliant)
        [0x00, 0x14, 0x00, 0xa4, 2, 0, 0, 0] =
      ([UsbOp.writeBulk 0x03 [0x00, 0x14, 0x00, 0xa3] 3000,
        UsbOp.readBulk 0x83 8 3000],
       .ok (.headphones (.micClassCompliant false))) := by
  decide

/-- C3 amended: VersionNumber(1,2,0,80) < VersionNumber(1,2,0,81) holds and
    every message carries a declared minimum version, but the transport
    never consults the firmware version: fetch_value and set_value are
    invariant under the device's firmware version, and reject only on the
    device-family applicability check (before any I/O). -/
theorem C3_no_firmware_gating :
    VersionNumber.lt ⟨1, 2, 0, 80⟩ ⟨1, 2, 0, 81⟩ = true ∧
    (∀ dt v1 v2 msg resp,
      fetch_value ⟨dt, v1⟩ msg resp = fetch_value ⟨dt, v2⟩ msg resp ∧
      set_value ⟨dt, v1⟩ msg resp = set_value ⟨dt, v2⟩ msg resp) ∧
    (∀ dt v msg resp, is_command_valid ⟨dt, v⟩ msg = false →
      fetch_value ⟨dt, v⟩ msg resp = ([], .error .commandNotValid) ∧
      set_value ⟨dt, v⟩ msg resp = ([], .error .commandNotValid)) := by
  refine ⟨by decide, fun dt v1 v2 msg resp => ⟨rfl, rfl⟩, ?_⟩
  intro dt v msg resp h
  constructor
  · simp [fetch_value, h]
  · simp [set_value, h]

/-- Witness for the amended C3: a Beacn Mic message sent to a Beacn Studio
    is rejected by the applicability check without I/O. -/
theorem C3_no_firmware_gating_witness :
    fetch_value ⟨.beacnStudio, ⟨0, 0, 0, 0⟩⟩ (.headphones .getMicClassCompliant) [] =
      ([], .error .commandNotValid) ∧
    set_value ⟨.beacnStudio, ⟨0, 0, 0, 0⟩⟩ (.headphones .getMicClassCompliant) [] =
      ([], .error .commandNotValid) :=
  C3_no_firmware_gating.2.2 .beacnStudio ⟨0, 0, 0, 0⟩
    (.headphones .getMicClassCompliant) [] (by decide)

/-- C1: param_set writes the 8-byte key+0xA4+value request with a 200 ms
    timeout, immediately issues the GET on the same key (3 s timeout), and
    compares the returned value bytes with the written ones: whenever the
    read-back differs from what was written, the result is the distinct
    "value was not changed" error and never success. -/
theorem C1_set_readback_mismatch (k0 k1 k2 v0 v1 v2 v3 r0 r1 r2 r3 r4 r5 r6 r7 : Nat)
    (hne : [r4, r5, r6, r7] ≠ [v0, v1, v2, v3]) :
    (param_set [k0, k1, k2] [v0, v1, v2, v3] [r0, r1, r2, r3, r4, r5, r6, r7]).1 =
      [UsbOp.writeBulk 0x03 [k0, k1, k2, 0xa4, v0, v1, v2, v3] 200,
       UsbOp.writeBulk 0x03 [k0, k1, k2, 0xa3] 3000,
       UsbOp.readBulk 0x83 8 3000] ∧
    (∀ res, (param_set [k0, k1, k2] [v0, v1, v2, v3]
        [r0, r1, r2, r3, r4, r5, r6, r7]).2 ≠ .ok res) ∧
    (r0 = k0 → r1 = k1 → r3 = 0xa4 →
      (param_set [k0, k1, k2] [v0, v1, v2, v3] [r0, r1, r2, r3, r4, r5, r6, r7]).2 =
        .error .valueNotChanged) := by
  simp only [param_set, param_lookup]
  split_ifs with hcond
  · have hmm : List.drop 4 ([k0, k1, k2] ++ [0xa4] ++ [v0, v1, v2, v3]) ≠
        List.drop 4 [r0, r1, r2, r3, r4, r5, r6, r7] := by
      intro he
      exact hne (by simpa using he.symm)
    dsimp only
    rw [if_pos hmm]
    exact ⟨rfl, fun res h => Except.noConfusion h, fun _ _ _ => rfl⟩
  · dsimp only
    refine ⟨rfl, fun res h => Except.noConfusion h, fun h1 h2 h3 => ?_⟩
    exact absurd ⟨by rw [h1, h2]; rfl, h3⟩ hcond

/-- Witness for C1: the stub echoes value bytes 7,7,7,7 back for a SET of
    9,9,9,9; the call reports the value-not-changed error. -/
theorem C1_witness :
    (param_set [1, 2, 3] [9, 9, 9, 9] [1, 2, 0, 0xa4, 7, 7, 7, 7]).2 =
      .error .valueNotChanged :=
  (C1_set_readback_mismatch 1 2 3 9 9 9 9 1 2 0 0xa4 7 7 7 7 (by decide)).2.2 rfl rfl rfl

/-- C4: for every primitive value inside the declared range, the 4-byte wire
    encoding decodes back to the same value, for the range-carrying wrapper
    types Percent (f32, 0.0..=100.0), TimeFrame (f32, 1.0..=2000.0) and
    MicGain (u32, 3..=20). -/
theorem C4_encode_decode_roundtrip (v : Nat) (hv : v < 4294967296) :
    (range_contains percentInstance v = true →
      (write_value percentInstance (Percent.mk v)).bind (read_value percentInstance) =
        some (Percent.mk v)) ∧
    (range_contains timeFrameInstance v = true →
      (write_value timeFrameInstance (TimeFrame.mk v)).bind (read_value timeFrameInstance) =
        some (TimeFrame.mk v)) ∧
    (range_contains micGainInstance v = true →
      (write_value micGainInstance (MicGain.mk v)).bind (read_value micGainInstance) =
        some (MicGain.mk v)) := by
  have hrt : f32_read_beacn (f32_write_beacn v) = v := read_u32le_u32le v hv
  have hrt2 : read_u32le (u32le v) = v := read_u32le_u32le v hv
  refine ⟨?_, ?_, ?_⟩ <;> intro h <;>
    simp only [write_value, read_value, percentInstance, timeFrameInstance,
      micGainInstance] at h ⊢ <;>
    simp [h, hrt, hrt2]

/-- Witness for C4: 50.0 (bits 0x42480000) lies in both f32 ranges; the u32
    value 10 lies in MicGain's range; all three roundtrip. -/
theorem C4_witness :
    (write_value percentInstance (Percent.mk 0x42480000)).bind (read_value percentInstance) =
      some (Percent.mk 0x42480000) ∧
    (write_value timeFrameInstance (TimeFrame.mk 0x42480000)).bind (read_value timeFrameInstance) =
      some (TimeFrame.mk 0x42480000) ∧
    (write_value micGainInstance (MicGain.mk 10)).bind (read_value micGainInstance) =
      some (MicGain.mk 10) :=
  ⟨(C4_encode_decode_roundtrip 0x42480000 (by decide)).1 (by decide),
   (C4_encode_decode_roundtrip 0x42480000 (by decide)).2.1 (by decide),
   (C4_encode_decode_roundtrip 10 (by decide)).2.2 (by decide)⟩

/-- C5: for every f32 bit pattern outside the declared range, encoding fails
    before producing wire bytes, and every 4-byte buffer decoding outside the
    range fails to decode; neither path yields a clamped or default value
    (the panic is modelled as none). -/
theorem C5_out_of_range_fails (v : Nat) (bs : List Nat) :
    (range_contains percentInstance v = false →
      write_value percentInstance (Percent.mk v) = none) ∧
    (range_contains percentInstance (f32_read_beacn bs) = false →
      read_value percentInstance bs = none) ∧
    (range_contains timeFrameInstance v = false →
      write_value timeFrameInstance (TimeFrame.mk v) = none) ∧
    (range_contains timeFrameInstance (f32_read_beacn bs) = false →
      read_value timeFrameInstance bs = none) ∧
    (range_contains micGainInstance v = false →
      write_value micGainInstance (MicGain.mk v) = none) ∧
    (range_contains micGainInstance (read_u32le bs) = false →
      read_value micGainInstance bs = none) := by
  refine ⟨fun h => ?_, fun h => ?_, fun h => ?_, fun h => ?_, fun h => ?_, fun h => ?_⟩ <;>
    simp_all [write_value, read_value, percentInstance, timeFrameInstance,
      micGainInstance, f32_read_beacn]

/-- Witness for C5: 5000.0 (bits 0x459C4000) is above all three ranges; all
    encodes fail, and all decodes of its wire bytes fail. -/
theorem C5_witness :
    write_value percentInstance (Percent.mk 0x459C4000) = none ∧
    read_value percentInstance [0x00, 0x40, 0x9C, 0x45] = none ∧
    write_value timeFrameInstance (TimeFrame.mk 0x459C4000) = none ∧
    read_value timeFrameInstance [0x00, 0x40, 0x9C, 0x45] = none ∧
    write_value micGainInstance (MicGain.mk 0x459C4000) = none ∧
    read_value micGainInstance [0x00, 0x40, 0x9C, 0x45] = none :=
  ⟨(C5_out_of_range_fails 0x459C4000 [0x00, 0x40, 0x9C, 0x45]).1 (by decide),
   (C5_out_of_range_fails 0x459C4000 [0x00, 0x40, 0x9C, 0x45]).2.1 (by decide),
   (C5_out_of_range_fails 0x459C4000 [0x00, 0x40, 0x9C, 0x45]).2.2.1 (by decide),
   (C5_out_of_range_fails 0x459C4000 [0x00, 0x40, 0x9C, 0x45]).2.2.2.1 (by decide),
   (C5_out_of_range_fails 0x459C4000 [0x00, 0x40, 0x9C, 0x45]).2.2.2.2.1 (by decide),
   (C5_out_of_range_fails 0x459C4000 [0x00, 0x40, 0x9C, 0x45]).2.2.2.2.2 (by decide)⟩

/-! ### C7 support lemmas -/

theorem buttons_mem_iterList (b : Buttons) : b ∈ Buttons.iterList := by
  cases b <;> decide

theorem and1_eq_mod (n k : Nat) : (n >>> k) &&& 1 = n / 2 ^ k % 2 := by
  rw [Nat.and_one_is_mod, Nat.shiftRight_eq_div_pow]

theorem and1_eq_testBit (n k : Nat) :
    (n >>> k) &&& 1 = (if Nat.testBit n k then 1 else 0) := by
  rw [and1_eq_mod, Nat.testBit_to_div_mod]
  rcases Nat.mod_two_eq_zero_or_one (n / 2 ^ k) with h | h <;> simp [h]

theorem mem_button_events (last buttons : Nat) (b : Buttons) (s : ButtonState) :
    Interactions.buttonPress b s ∈ button_events last buttons ↔
      ((last >>> b.code) &&& 1 ≠ (buttons >>> b.code) &&& 1 ∧
       s = (if (buttons >>> b.code) &&& 1 == 1 then .press else .release)) := by
  unfold button_events
  rw [List.mem_filterMap]
  constructor
  · rintro ⟨a, _, hf⟩
    split at hf
    next hcnd =>
      rw [Option.some.injEq] at hf
      injection hf with h1 h2
      subst h1
      exact ⟨hcnd, h2.symm⟩
    next => exact Option.noConfusion hf
  · rintro ⟨hc, hs⟩
    refine ⟨b, buttons_mem_iterList b, ?_⟩
    rw [if_pos hc, hs]

theorem buttonPress_not_mem_dial_events (message : List Nat) (b : Buttons)
    (s : ButtonState) : Interactions.buttonPress b s ∉ dial_events message := by
  unfold dial_events
  rw [List.mem_filterMap]
  rintro ⟨a, _, hf⟩
  split at hf
  · exact Interactions.noConfusion (Option.some.inj hf)
  · exact Option.noConfusion hf

/-- C7 amended: the new state is the big-endian 16-bit mask from bytes 8..10;
    Press events are emitted exactly for the bits of the Buttons enumeration
    (positions 0,1,2 and 8..15 — positions 3..7 have no enumerator) that are
    set in the new mask but not the previous one, Release exactly for the
    enumerated bits set in the previous mask but not the new one; an
    unchanged mask emits no button events; and the changed flag is set
    exactly when some event was emitted. -/
theorem C7_edge_events (message : List Nat) (last : Nat) :
    ((handle_interaction message last).2.1 = read_u16be ((message.drop 8).take 2)) ∧
    (∀ b : Buttons,
      Interactions.buttonPress b .press ∈ (handle_interaction message last).2.2 ↔
        (Nat.testBit (read_u16be ((message.drop 8).take 2)) b.code = true ∧
         Nat.testBit last b.code = false)) ∧
    (∀ b : Buttons,
      Interactions.buttonPress b .release ∈ (handle_interaction message last).2.2 ↔
        (Nat.testBit (read_u16be ((message.drop 8).take 2)) b.code = false ∧
         Nat.testBit last b.code = true)) ∧
    ((handle_interaction message last).1 = true ↔
      (handle_interaction message last).2.2 ≠ []) ∧
    (read_u16be ((message.drop 8).take 2) = last →
      ∀ b s, Interactions.buttonPress b s ∉ (handle_interaction message last).2.2) := by
  refine ⟨rfl, ?_, ?_, ?_, ?_⟩
  · intro b
    show Interactions.buttonPress b .press ∈ _ ++ _ ↔ _
    rw [List.mem_append]
    constructor
    · rintro (h | h)
      · exact absurd h (buttonPress_not_mem_dial_events message b .press)
      · rw [mem_button_events] at h
        obtain ⟨hne2, hs⟩ := h
        simp only [and1_eq_testBit] at hne2 hs
        cases ht : Nat.testBit (read_u16be ((message.drop 8).take 2)) b.code <;>
          cases hl : Nat.testBit last b.code <;>
          rw [ht] at hne2 hs <;> rw [hl] at hne2 <;> simp_all
    · rintro ⟨ht, hl⟩
      refine Or.inr ?_
      rw [mem_button_events]
      simp only [and1_eq_testBit, ht, hl]
      simp
  · intro b
    show Interactions.buttonPress b .release ∈ _ ++ _ ↔ _
    rw [List.mem_append]
    constructor
    · rintro (h | h)
      · exact absurd h (buttonPress_not_mem_dial_events message b .release)
      · rw [mem_button_events] at h
        obtain ⟨hne2, hs⟩ := h
        simp only [and1_eq_testBit] at hne2 hs
        cases ht : Nat.testBit (read_u16be ((message.drop 8).take 2)) b.code <;>
          cases hl : Nat.testBit last b.code <;>
          rw [ht] at hne2 hs <;> rw [hl] at hne2 <;> simp_all
    · rintro ⟨ht, hl⟩
      refine Or.inr ?_
      rw [mem_button_events]
      simp only [and1_eq_testBit, ht, hl]
      simp
  · unfold handle_interaction
    dsimp only
    rcases h : dial_events message ++
        button_events last (read_u16be ((message.drop 8).take 2)) with _ | ⟨e, es⟩ <;>
      simp [h]
  · intro heq b s
    show Interactions.buttonPress b s ∉ _ ++ _
    rw [List.mem_append]
    rintro (h | h)
    · exact absurd h (buttonPress_not_mem_dial_events message b s)
    · rw [mem_button_events] at h
      rw [heq] at h
      exact h.1 rfl

/-- The codes of the Press events in an event list. -/
def press_codes (evs : List Interactions) : List Nat :=
  evs.filterMap fun e =>
    match e with
    | .buttonPress b .press => some b.code
    | _ => none

/-- A 64-byte input report whose button mask is 0x0008: only bit 3 set, a bit
    position with no Buttons enumerator.  All dial bytes are zero. -/
def bit3InputReport : List Nat := List.replicate 9 0 ++ [8] ++ List.replicate 54 0

/-- C7 counterexample: with previous mask 0 and current mask 8 (bit 3 rose),
    the claim demands a Press for bit 3, but the decoder emits no event at
    all: bit 3 has no Buttons enumerator, so the per-bit iteration skips it. -/
theorem C7_counterexample :
    ¬ (∀ k : Fin 16,
        ((k : Nat) ∈ press_codes (handle_interaction bit3InputReport 0).2.2 ↔
         (Nat.testBit (read_u16be ((bit3InputReport.drop 8).take 2)) (k : Nat) = true ∧
          Nat.testBit 0 (k : Nat) = false))) := by
  decide

/-- Witness for the amended C7, applied at the all-zero report with previous
    mask 0: an unchanged mask emits no button events. -/
theorem C7_witness :
    Interactions.buttonPress .audienceMix .press ∉
      (handle_interaction (List.replicate 64 0) 0).2.2 :=
  (C7_edge_events (List.replicate 64 0) 0).2.2.2.2 (by decide) .audienceMix .press

/-- Witness for C10: a 60 s timeout is queued as a SetDimTimeout command. -/
theorem C10_witness :
    set_dim_timeout 60000000000 = .ok (.setDimTimeout 60000000000) :=
  (C10_set_dim_timeout_range 60000000000).1.mpr (by decide)
